import Mathlib

/-
Shallow embedding of the WoWbjectImporter WMO import module
(src/import_wmo.py) and verification of the frozen claims about it.

Modelling conventions:
* Python exceptions are modelled by `Except PyErr`; sequential statements
  become monadic binds in the same order as the source.
* Python list indexing `l[i]` (negative indices wrap from the end, out of
  range raises IndexError) is `pyIndex`; slices `l[a:b]` are `pySlice`.
* The OBJ byte stream is modelled after whitespace splitting: one input
  line is the `List String` of its tokens.  Numeric float payloads (vertex
  positions, normals, UVs) are never interpreted by the import logic, only
  stored and moved, so they are kept as their raw token lists; face vertex
  indices, which the code does interpret, are parsed to `Int` via `pyInt`.
* External collaborators that are not part of this repository's source
  (the Blender `bmesh`/`bpy` data model, `lookup_funcs.wmo_read_color`,
  `lookup_funcs.wmo_read_group_flags`, the mashumaro JSON decoder) are
  modelled minimally: `bmesh` vertex/face stores by `BMesh` (`faces.new`
  raises ValueError on a duplicate or degenerate face, exactly the
  behaviour the source's try/except relies on), and the decoders are
  abstract function parameters.
-/

/-- Python exception kinds raised by the modelled code paths. -/
inductive PyErr where
  | indexError
  | keyError
  | typeError
  | attributeError
  | valueError (msg : String)
  | runtimeError (msg : String)
deriving DecidableEq, Repr

/-- Python `l[i]`: negative indices address from the end; anything still out
of range raises IndexError. -/
def pyIdx {α : Type} (l : List α) (i : Int) : Int :=
  if i < 0 then i + l.length else i

def pyIndex {α : Type} (l : List α) (i : Int) : Except PyErr α :=
  if h : 0 ≤ pyIdx l i ∧ (pyIdx l i).toNat < l.length then
    .ok (l.get ⟨(pyIdx l i).toNat, h.2⟩)
  else .error .indexError

/-- Python `l[i] = a` at an index already validated by `pyIndex`
(used to model in-place mutation of a list element's object). -/
def pySetList {α : Type} (l : List α) (i : Int) (a : α) : List α :=
  if 0 ≤ pyIdx l i then l.set (pyIdx l i).toNat a else l

/-- Resolve one bound of a Python slice against a list length. -/
def pyBound (len : Nat) (i : Int) : Nat :=
  if i < 0 then (i + len).toNat else min i.toNat len

/-- Python `l[a:b]` (never raises; bounds are clamped). -/
def pySlice {α : Type} (l : List α) (a b : Int) : List α :=
  (l.take (pyBound l.length b)).drop (pyBound l.length a)

def pyIntMsg : String := "invalid literal for int() with base 10"

/-- Decimal digit value of a character, if it is one. -/
def charDigit (c : Char) : Option Nat :=
  if '0' ≤ c ∧ c ≤ '9' then some (c.toNat - '0'.toNat) else none

/-- Accumulate a decimal digit run; `none` on any non-digit. -/
def digitsVal : List Char → Nat → Option Nat
  | [], acc => some acc
  | c :: cs, acc =>
    match charDigit c with
    | some d => digitsVal cs (acc * 10 + d)
    | none => none

/-- Sign-then-digit-run core of Python `int`. -/
def pyIntCore : List Char → Option Int
  | [] => none
  | '+' :: rest =>
    if rest.isEmpty then none else (digitsVal rest 0).map Int.ofNat
  | '-' :: rest =>
    if rest.isEmpty then none else (digitsVal rest 0).map (fun n => -(n : Int))
  | l => (digitsVal l 0).map Int.ofNat

/-- Python `int(token)` on a whitespace-free token: optional sign then a
nonempty digit run. -/
def pyInt (s : String) : Except PyErr Int :=
  match pyIntCore s.toList with
  | some n => .ok n
  | none => .error (.valueError pyIntMsg)

/-- Python `token.split(sep)` with an explicit one-character separator
(`''.split(sep) = ['']`, separators at the ends yield empty fields). -/
def splitCharAux (sep : Char) : List Char → List Char → List String
  | [], acc => [String.mk acc.reverse]
  | c :: cs, acc =>
    if c == sep then String.mk acc.reverse :: splitCharAux sep cs []
    else splitCharAux sep cs (c :: acc)

def pySplitChar (s : String) (sep : Char) : List String :=
  splitCharAux sep s.toList []

/-- Python `needle in hay` for strings (substring test). -/
def strContains (hay needle : String) : Bool :=
  hay.toList.tails.any (fun t => needle.toList.isPrefixOf t)

/-- Python `dict[key]` on an association list keyed by `Int`/`Nat` handles
(raises KeyError when absent; writes prepend, so the first hit is the
latest write). -/
def lookupD {α β : Type} [BEq α] (d : List (α × β)) (k : α) : Except PyErr β :=
  match d.lookup k with
  | some v => .ok v
  | none => .error .keyError

/-- `list.find`-style name lookup used for material slots: index of the
first occurrence, `-1` when absent. -/
def listFind (l : List Int) (m : Int) (i : Int) : Int :=
  match l with
  | [] => -1
  | x :: xs => if x == m then i else listFind xs m (i + 1)

def emptyTok : String := ""
def undefinedTok : String := "undefined"
def uvZeroPair : List String := ["0.0", "0.0"]

/-- `ObjGroup` (source lines 42-55): one obj `g`-section; `verts` is the
0-based used-vertex set, `faces` the 1-based index triples. -/
structure ObjGroup where
  mtlname : Option String := none
  name : Option String := none
  verts : Finset Int := ∅
  faces : List (Int × Int × Int) := []
deriving DecidableEq, Inhabited

/-- `ObjData` (source lines 58-79): flat geometry record for the whole
file.  Coordinate payloads are kept as their raw tokens. -/
structure ObjData where
  usemtl : String := ""
  mtlfile : String := ""
  name : Option String := none
  verts : List (List String) := []
  normals : List (List String) := []
  uv : List (List String) := []
  uv2 : List (List String) := []
  uv3 : List (List String) := []
  groups : List ObjGroup := []
deriving DecidableEq, Inhabited

/-- Parser state of `read_obj`: the record under construction and the
running `groupIndex` (starts at `-1`). -/
structure ParseState where
  data : ObjData
  groupIndex : Int
deriving DecidableEq, Inhabited

def initParseState : ParseState := { data := {}, groupIndex := -1 }

def facesBeforeGroupMsg : String := "obj file specifies faces before a face group"

/-- One iteration of the `read_obj` line loop (source lines 115-180),
dispatching on the first token exactly in source order. -/
def readLine (st : ParseState) (line : List String) : Except PyErr ParseState :=
  match line with
  | [] => .ok st
  | line_start :: _ =>
    if line_start == "mtllib" then do
      let t ← pyIndex line 1
      .ok { st with data.mtlfile := t }
    else if line_start == "v" then
      .ok { st with data.verts := st.data.verts ++ [pySlice line 1 4] }
    else if line_start == "vn" then
      .ok { st with data.normals := st.data.normals ++ [pySlice line 1 4] }
    else if line_start == "vt3" then
      .ok { st with data.uv3 := st.data.uv3 ++ [pySlice line 1 3] }
    else if line_start == "vt2" then do
      let t ← pyIndex line 1
      if t != undefinedTok then
        .ok { st with data.uv2 := st.data.uv2 ++ [pySlice line 1 3] }
      else
        .ok { st with data.uv2 := st.data.uv2 ++ [uvZeroPair] }
    else if line_start == "vt" then
      .ok { st with data.uv := st.data.uv ++ [pySlice line 1 3] }
    else if line_start == "f" then
      if st.groupIndex < 0 then
        .error (.runtimeError facesBeforeGroupMsg)
      else do
        let rest := line.drop 1
        let fv ← rest.mapM (fun tok => pyInt ((pySplitChar tok '/').headD emptyTok))
        let f0 ← pyIndex fv 0
        let f1 ← pyIndex fv 1
        let f2 ← pyIndex fv 2
        let g ← pyIndex st.data.groups st.groupIndex
        let g' := { g with faces := g.faces ++ [(f0, f1, f2)],
                           verts := g.verts ∪ (fv.map (fun i => i - 1)).toFinset }
        .ok { st with data.groups := pySetList st.data.groups st.groupIndex g' }
    else if line_start == "o" then do
      let t ← pyIndex line 1
      .ok { st with data.name := some t }
    else if line_start == "g" then do
      let st1 : ParseState :=
        { st with data.groups := st.data.groups ++ [{}],
                  groupIndex := st.groupIndex + 1 }
      let t ← pyIndex line 1
      let g ← pyIndex st1.data.groups st1.groupIndex
      .ok { st1 with data.groups := pySetList st1.data.groups st1.groupIndex { g with name := some t } }
    else if line_start == "usemtl" then do
      let t ← pyIndex line 1
      let g ← pyIndex st.data.groups st.groupIndex
      .ok { st with data.groups := pySetList st.data.groups st.groupIndex { g with mtlname := some t } }
    else .ok st

/-- The `read_obj` line loop over the token-split lines of the file. -/
def read_obj_lines (lines : List (List String)) (st : ParseState) : Except PyErr ParseState :=
  match lines with
  | [] => .ok st
  | l :: ls =>
    match readLine st l with
    | .ok st' => read_obj_lines ls st'
    | .error e => .error e

/-- `read_obj` (source lines 106-186). -/
def read_obj (lines : List (List String)) : Except PyErr ObjData :=
  (read_obj_lines lines initParseState).map (fun st => st.data)

/-- `JsonWmoRenderBatch`: the render-batch fields the import logic reads
(`firstVertex`, `lastVertex`, `materialID`, `flags`, `possibleBox2`). -/
structure JsonWmoRenderBatch where
  firstVertex : Int := 0
  lastVertex : Int := 0
  materialID : Int := 0
  flags : Int := 0
  possibleBox2 : List Int := []
deriving DecidableEq, Inhabited

/-- `JsonWmoGroup`: the per-group metadata fields the import logic reads. -/
structure JsonWmoGroup where
  groupName : Option String := none
  groupDescription : Option String := none
  flags : Int := 0
  numPortals : Int := 0
  numBatchesA : Int := 0
  numBatchesB : Int := 0
  numBatchesC : Int := 0
  renderBatches : List JsonWmoRenderBatch := []
  vertexColours : List (List Int) := []
deriving DecidableEq, Inhabited

/-- `JsonWmoMaterial`: material entry; the import stage only uses the
list's length (to build `mat_dict` keys `0..n-1`). -/
structure JsonWmoMaterial where
  texture1 : Int := 0
  texture2 : Int := 0
  texture3 : Int := 0
  color2 : Int := 0
deriving DecidableEq, Inhabited

/-- `JsonWmoMetadata`: the decoded metadata document. -/
structure JsonWmoMetadata where
  fileName : String := ""
  groups : List JsonWmoGroup := []
  materials : List JsonWmoMaterial := []
  ambientColor : Int := 0
deriving DecidableEq, Inhabited

/-- The vertex-color branch of the reconciliation loop (source lines
350-359): what one non-batchless WMO group appends to the two shared
`flat_colors` buffers, dispatching on `len(vcolors)` (2 / 1 / 0; other
lengths append nothing, as the source's if/elif chain has no such arm). -/
def color_contrib (vcolors : List (List Int)) (last_vertex : Int)
    (group_vertex_count : Nat) : List Int × List Int :=
  match vcolors with
  | [c0, c1] => (pySlice c0 0 last_vertex, pySlice c1 0 last_vertex)
  | [c0] => (pySlice c0 0 last_vertex, List.replicate last_vertex.toNat 0)
  | [] =>
    if group_vertex_count > 0 then
      (List.replicate last_vertex.toNat 0, List.replicate last_vertex.toNat 0)
    else ([], [])
  | _ => ([], [])

/-- `WmoGroup` (source lines 83-100).  In the source, `colors` is assigned
the shared `flat_colors` list object by reference (line 372); since that
list keeps being extended in place while later groups are reconciled,
reading any group's `colors` after reconciliation yields the final shared
buffer.  The reference is modelled by `colorsAliased`, and the read by the
observation function `WmoGroup.colors` below; `json_group` is only set on
groups with batches (`dataclass(init=False)` leaves it unset otherwise,
hence `Option`). -/
structure WmoGroup where
  obj_data : ObjData := {}
  json_group : Option JsonWmoGroup := none
  group_offset : Int := -1
  batch_count : Int := -1
  mesh_batches : List ObjGroup := []
  json_batches : List JsonWmoRenderBatch := []
  colorsAliased : Bool := false
deriving DecidableEq, Inhabited

/-- Reading `wmo_group.colors` after reconciliation: the aliased shared
`flat_colors` object `[c0, c1, c2]` (its third buffer is never written),
or the dataclass default `[]` for batchless groups. -/
def WmoGroup.colors (g : WmoGroup) (final : List Int × List Int) : List (List Int) :=
  if g.colorsAliased then [final.1, final.2, []] else []

/-- The reconciliation loop of `import_wmo` ("repack_wmo", source lines
309-384): walk the metadata groups in order with a running `offset` into
the parsed obj groups, claiming `batch_count` consecutive obj groups per
non-batchless WMO group and appending that group's color contribution to
the shared flat buffers.  Returns (groups, final offset, final buffers). -/
def repackAux (obj_data : ObjData) :
    List JsonWmoGroup → Nat → List Int × List Int →
    List WmoGroup × Nat × (List Int × List Int)
  | [], offset, flat => ([], offset, flat)
  | group :: restGroups, offset, flat =>
    let batch_count := group.renderBatches.length
    if batch_count > 0 then
      let mesh_batches := pySlice obj_data.groups offset (offset + batch_count)
      let vcolors := group.vertexColours
      let last_vertex := (group.renderBatches.getLastD {}).lastVertex + 1
      let group_vertex_count := (mesh_batches.map (fun b => b.verts.card)).sum
      let contrib := color_contrib vcolors last_vertex group_vertex_count
      let flat' := (flat.1 ++ contrib.1, flat.2 ++ contrib.2)
      let wmo_group : WmoGroup :=
        { obj_data := obj_data, json_group := some group,
          group_offset := (offset + batch_count : Nat),
          batch_count := (batch_count : Nat),
          mesh_batches := mesh_batches,
          json_batches := group.renderBatches,
          colorsAliased := true }
      let r := repackAux obj_data restGroups (offset + batch_count) flat'
      (wmo_group :: r.1, r.2)
    else
      let wmo_group : WmoGroup :=
        { obj_data := obj_data, batch_count := 0 }
      let r := repackAux obj_data restGroups offset flat
      (wmo_group :: r.1, r.2)

/-- Reconciliation entry point: offset 0, empty shared color buffers. -/
def repack (obj_data : ObjData) (jgroups : List JsonWmoGroup) :
    List WmoGroup × Nat × (List Int × List Int) :=
  repackAux obj_data jgroups 0 ([], [])

/-- The four lighting classifications written to `WBJ.wmo_lighting_type`. -/
inductive WmoLightingType where
  | transition
  | interior
  | exterior
  | unlit
deriving DecidableEq, Repr, Inhabited

/-- Lighting classification from the decoded flag set (source lines
580-588). -/
def wmo_lighting_type (flags : List String) : WmoLightingType :=
  if "INTERIOR" ∈ flags ∧ "EXTERIOR" ∈ flags then .transition
  else if "INTERIOR" ∈ flags then .interior
  else if "EXTERIOR" ∈ flags then .exterior
  else .unlit

/-- Material-id resolution for a render batch (source lines 655-659 and
695-698): `flags == 2` redirects the lookup to `possibleBox2[2]`. -/
def resolve_mat_ID (batch : JsonWmoRenderBatch) : Except PyErr Int :=
  if batch.flags == 2 then pyIndex batch.possibleBox2 2
  else .ok batch.materialID

/-- A `bmesh` vertex handle: creation-order id plus the source position it
was created at. -/
structure BMVert where
  id : Nat
  pos : List String
deriving DecidableEq, Inhabited

/-- A `bmesh` face: three vertex handles plus the material-slot index. -/
structure BMFace where
  v1 : Nat := 0
  v2 : Nat := 0
  v3 : Nat := 0
  material_index : Int := 0
deriving DecidableEq, Inhabited

/-- The `bmesh` under construction: vertices and faces in creation order. -/
structure BMesh where
  verts : List BMVert := []
  faces : List BMFace := []
deriving DecidableEq, Inhabited

/-- `bm.verts.new(pos)`: always succeeds, returns the new handle. -/
def bmVertsNew (bm : BMesh) (pos : List String) : BMVert × BMesh :=
  let v : BMVert := { id := bm.verts.length, pos := pos }
  (v, { bm with verts := bm.verts ++ [v] })

/-- Whether an existing face uses exactly the vertex set `{a, b, c}`
(handles within a face are distinct, so mutual membership suffices). -/
def bmFaceHasVerts (f : BMFace) (a b c : Nat) : Bool :=
  (f.v1 == a || f.v1 == b || f.v1 == c) &&
  (f.v2 == a || f.v2 == b || f.v2 == c) &&
  (f.v3 == a || f.v3 == b || f.v3 == c)

def dupVertMsg : String := "faces.new(verts): found the same (BMVert) used multiple times"
def dupFaceMsg : String := "faces.new(verts): face already exists"

/-- `bm.faces.new((a, b, c))`, optionally with an example face whose
attributes (here: `material_index`) the new face copies.  Raises
ValueError on a degenerate triple or an already-existing face — the
behaviour `wmo_setup_blender_object`'s try/except recovers from. -/
def bmFacesNew (bm : BMesh) (a b c : Nat) (exampleF : Option Nat) :
    Except PyErr (Nat × BMesh) :=
  if a == b || b == c || a == c then .error (.valueError dupVertMsg)
  else if bm.faces.any (fun f => bmFaceHasVerts f a b c) then
    .error (.valueError dupFaceMsg)
  else
    let mi : Int :=
      match exampleF with
      | some e => ((bm.faces.get? e).map (fun f => f.material_index)).getD 0
      | none => 0
    .ok (bm.faces.length, { bm with faces := bm.faces ++ [{ v1 := a, v2 := b, v3 := c, material_index := mi }] })

/-- `bface.material_index = m` on the face created at index `fi`. -/
def bmSetFaceMat (bm : BMesh) (fi : Nat) (m : Int) : BMesh :=
  match bm.faces.get? fi with
  | some f => { bm with faces := bm.faces.set fi { f with material_index := m } }
  | none => bm

/-- Mutable state threaded through the batch loop of
`wmo_setup_blender_object`: the mesh, `v_dict` (source vertex index →
vertex handle id), the `colors` stash (handle id → per-layer colors), and
the object's material slots (as the `mat_dict` ids they hold, in slot
order). -/
structure BuildState (Color : Type) where
  bm : BMesh := {}
  v_dict : List (Int × Nat) := []
  colors : List (Nat × List Color) := []
  slots : List Int := []

/-- Material resolution and slot assignment for a batch's example face
(source lines 655-672 / 695-708): resolve the id (sentinel rule), fail
with KeyError if `mat_dict` has no such key, then find-or-append the
object's material slot and set the face's `material_index`. -/
def assignMaterial {Color : Type} (st : BuildState Color) (fi : Nat)
    (batch : JsonWmoRenderBatch) (mat_dict : List Int) :
    Except PyErr (BuildState Color) := do
  let mat_ID ← resolve_mat_ID batch
  if mat_dict.contains mat_ID then
    let local_index := listFind st.slots mat_ID 0
    if local_index == -1 then
      let slots' := st.slots ++ [mat_ID]
      .ok { st with slots := slots',
                    bm := bmSetFaceMat st.bm fi (listFind slots' mat_ID 0) }
    else
      .ok { st with bm := bmSetFaceMat st.bm fi local_index }
  else .error .keyError

/-- The three vertex indices of a face record, in order. -/
def triList (face : Int × Int × Int) : List Int := [face.1, face.2.1, face.2.2]

/-- The per-vertex step of the face loop (source lines 617-644): map the
source index to a vertex handle, creating one at
`obj_data.verts[v - 1]` if unmapped, then (when color data exists) stash
this vertex's per-layer colors read at `sublist[v - 1]`.
`type(color_list[0]) == list` is always true here since
`group.colors : List (List Int)`, so the dead else-arm is not modelled. -/
def processVert {Color : Type} (wmo_read_color : Int → Color)
    (obj_data : ObjData) (do_colors : Bool) (color_list : List (List Int))
    (st : BuildState Color) (v : Int) : Except PyErr (BuildState Color) := do
  let st1 ←
    match st.v_dict.lookup v with
    | some _ => .ok st
    | none => do
      let pos ← pyIndex obj_data.verts (v - 1)
      let r := bmVertsNew st.bm pos
      .ok { st with bm := r.2, v_dict := (v, r.1.id) :: st.v_dict }
  if do_colors then do
    let vert ← lookupD st1.v_dict v
    let v_color ← color_list.mapM (fun sublist => (pyIndex sublist (v - 1)).map wmo_read_color)
    .ok { st1 with colors := (vert, v_color) :: st1.colors }
  else .ok st1

/-- The `except ValueError` recovery path (source lines 681-710): create
three new non-shared vertices at the same source positions, copy the
stashed colors of the originally mapped vertices onto them (an uncaught
KeyError when nothing was stashed), and retry face creation. -/
def dupFaceRecovery {Color : Type} (obj_data : ObjData)
    (json_batches : List JsonWmoRenderBatch) (mat_dict : List Int)
    (i : Nat) (st : BuildState Color) (exampleFace : Option Nat)
    (face : Int × Int × Int) : Except PyErr (BuildState Color × Option Nat) := do
  let p1 ← pyIndex obj_data.verts (face.1 - 1)
  let r1 := bmVertsNew st.bm p1
  let p2 ← pyIndex obj_data.verts (face.2.1 - 1)
  let r2 := bmVertsNew r1.2 p2
  let p3 ← pyIndex obj_data.verts (face.2.2 - 1)
  let r3 := bmVertsNew r2.2 p3
  let m1 ← lookupD st.v_dict face.1
  let c1 ← lookupD st.colors m1
  let m2 ← lookupD st.v_dict face.2.1
  let c2 ← lookupD st.colors m2
  let m3 ← lookupD st.v_dict face.2.2
  let c3 ← lookupD st.colors m3
  let st1 := { st with
                 bm := r3.2,
                 colors := (r3.1.id, c3) :: (r2.1.id, c2) :: (r1.1.id, c1) :: st.colors }
  match exampleFace with
  | none =>
    match bmFacesNew st1.bm r1.1.id r2.1.id r3.1.id none with
    | .ok fb => do
      let batch ← pyIndex json_batches (Int.ofNat i)
      let st2 ← assignMaterial { st1 with bm := fb.2 } fb.1 batch mat_dict
      .ok (st2, some fb.1)
    | .error e => .error e
  | some ef =>
    match bmFacesNew st1.bm r1.1.id r2.1.id r3.1.id (some ef) with
    | .ok fb => .ok ({ st1 with bm := fb.2 }, some ef)
    | .error e => .error e

/-- One face of one batch (source lines 616-714): map/create the three
vertices, then try to create the face (the batch's first successful face
also resolves and assigns its material and becomes the example face);
a ValueError from `faces.new` is recovered by `dupFaceRecovery`, any
other exception propagates. -/
def processFace {Color : Type} (wmo_read_color : Int → Color)
    (obj_data : ObjData) (json_batches : List JsonWmoRenderBatch)
    (mat_dict : List Int) (do_colors : Bool) (color_list : List (List Int))
    (i : Nat) (acc : BuildState Color × Option Nat) (face : Int × Int × Int) :
    Except PyErr (BuildState Color × Option Nat) := do
  let st ← (triList face).foldlM (processVert wmo_read_color obj_data do_colors color_list) acc.1
  let a ← lookupD st.v_dict face.1
  let b ← lookupD st.v_dict face.2.1
  let c ← lookupD st.v_dict face.2.2
  match acc.2 with
  | none =>
    match bmFacesNew st.bm a b c none with
    | .ok fb => do
      let batch ← pyIndex json_batches (Int.ofNat i)
      let st1 ← assignMaterial { st with bm := fb.2 } fb.1 batch mat_dict
      .ok (st1, some fb.1)
    | .error (.valueError _) =>
      dupFaceRecovery obj_data json_batches mat_dict i st none face
    | .error e => .error e
  | some ef =>
    match bmFacesNew st.bm a b c (some ef) with
    | .ok fb => .ok ({ st with bm := fb.2 }, some ef)
    | .error (.valueError _) =>
      dupFaceRecovery obj_data json_batches mat_dict i st (some ef) face
    | .error e => .error e

/-- One batch of the batch loop (source lines 613-714): `exampleFace`
starts as None for each batch; `v_dict`, `colors` and the mesh persist
across batches. -/
def processBatch {Color : Type} (wmo_read_color : Int → Color)
    (obj_data : ObjData) (json_batches : List JsonWmoRenderBatch)
    (mat_dict : List Int) (do_colors : Bool) (color_list : List (List Int))
    (st : BuildState Color) (ib : Nat × ObjGroup) :
    Except PyErr (BuildState Color) := do
  let r ← ib.2.faces.foldlM
    (processFace wmo_read_color obj_data json_batches mat_dict do_colors color_list ib.1)
    (st, none)
  .ok r.1

/-- The UV application loop (source lines 723-736): for the i-th source
face, write `obj_data.uv[face[j] - 1]` to the j-th loop of `bm.faces[i]`
(plus the second/third sets when their lists are nonempty; their values
are not recorded here, but their indexing — and so its failure — is).
Returns the primary-UV tokens written per loop. -/
def applyUVs (obj_data : ObjData) (bm : BMesh)
    (face_list : List (Int × Int × Int)) : Except PyErr (List (List String)) := do
  let r ← face_list.enum.mapM (fun p => do
    let _ ← pyIndex bm.faces (Int.ofNat p.1)
    (triList p.2).mapM (fun v => do
      let u ← pyIndex obj_data.uv (v - 1)
      if obj_data.uv2.length > 0 then
        let _ ← pyIndex obj_data.uv2 (v - 1)
        pure ()
      else pure ()
      if obj_data.uv3.length > 0 then
        let _ ← pyIndex obj_data.uv3 (v - 1)
        pure ()
      else pure ()
      pure u))
  .ok r.flatten

/-- The vertex-color application loop (source lines 740-748): for every
vertex that has linked loops, read its stashed `colors[vert]` (KeyError
when absent) and `colors[vert][i]` for every created color layer.
Returns the per-vertex layer colors written. -/
def applyColors {Color : Type} (bm : BMesh) (colors : List (Nat × List Color))
    (color_list : List (List Int)) : Except PyErr (List (Nat × List Color)) :=
  if color_list.length > 0 then
    bm.verts.foldlM (fun acc vert =>
      if bm.faces.any (fun f => f.v1 == vert.id || f.v2 == vert.id || f.v3 == vert.id) then do
        let c ← lookupD colors vert.id
        let written ← (List.range color_list.length).mapM (fun i => pyIndex c (Int.ofNat i))
        .ok (acc ++ [(vert.id, written)])
      else .ok acc) []
  else .ok []

/-- The finished per-group object: lighting tag, mesh, material slots (as
`mat_dict` ids in slot order), applied UVs and vertex colors. -/
structure BuiltObject (Color : Type) where
  lighting : WmoLightingType
  bm : BMesh
  slots : List Int
  uvLoops : List (List String)
  vertColors : List (Nat × List Color)
deriving DecidableEq

/-- `wmo_setup_blender_object` (source lines 559-795) for one reconciled
group, with the external decoders abstract (`wmo_read_color`,
`wmo_read_group_flags`) and `final_colors` the shared flat-color buffer
the group's `colors` field aliases at build time.  `merge_verts` and
`make_quads` keep their call-site defaults (False), so those external
passes are no-ops; scene placement, rotation and origin changes touch no
modelled state. -/
def wmo_setup_blender_object {Color : Type} (wmo_read_color : Int → Color)
    (wmo_read_group_flags : Int → List String) (mat_dict : List Int)
    (group : WmoGroup) (final_colors : List Int × List Int) :
    Except PyErr (Option (BuiltObject Color)) :=
  if group.batch_count < 1 then .ok none
  else do
    let obj_data := group.obj_data
    let json_group ← match group.json_group with
      | some j => .ok j
      | none => .error .attributeError
    let lighting := wmo_lighting_type (wmo_read_group_flags json_group.flags)
    let batches := group.mesh_batches
    let json_batches := group.json_batches
    let color_list := (group.colors final_colors).filter (fun clist => clist.length > 0)
    let do_colors := color_list.length > 0
    let st ← batches.enum.foldlM
      (processBatch wmo_read_color obj_data json_batches mat_dict do_colors color_list)
      ({} : BuildState Color)
    let face_list := (batches.map (fun batch => batch.faces)).flatten
    let uvLoops ← applyUVs obj_data st.bm face_list
    let vertColors ← applyColors st.bm st.colors color_list
    .ok (some { lighting := lighting, bm := st.bm, slots := st.slots,
                uvLoops := uvLoops, vertColors := vertColors })

/-- The JSON value loaded from the metadata sidecar. -/
inductive PyJson where
  | null
  | bool (b : Bool)
  | num (n : Int)
  | str (s : String)
  | arr (xs : List PyJson)
  | obj (kvs : List (String × PyJson))
deriving BEq, Inhabited

/-- Python truthiness (`if not json_config:`). -/
def pyTruthy : PyJson → Bool
  | .null => false
  | .bool b => b
  | .num n => n != 0
  | .str s => s != emptyTok
  | .arr xs => !xs.isEmpty
  | .obj kvs => !kvs.isEmpty

/-- `dict[key]` on a decoded JSON object (duplicate source keys: the last
occurrence wins, as in Python's json loader). -/
def dictGet (kvs : List (String × PyJson)) (k : String) : Option PyJson :=
  kvs.reverse.lookup k

def missingMetadataMsg : String := "failed to load metadata from sidecar, can't continue"
def emptyMetadataMsg : String := "failed to load metadata file"
def wrongKindMsg : String := "import_wmo called to import a non-WMO file"
def fileNameKey : String := "fileName"
def wmoMarker : String := ".wmo"

/-- The metadata-loading prelude of `import_wmo` (source lines 199-231):
missing sidecar → RuntimeError; falsy document → RuntimeError; then the
`".wmo" not in json_config["fileName"]` check → ValueError; only then the
structural decode (mashumaro `from_dict`, external, abstract here) runs.
The sidecar is `none` when `<name>.json` does not exist; path text in the
source's error messages is elided (no filesystem in the model). -/
def metadata_setup (sidecar : Option PyJson)
    (from_dict : PyJson → Except PyErr JsonWmoMetadata) :
    Except PyErr JsonWmoMetadata :=
  match sidecar with
  | none => .error (.runtimeError missingMetadataMsg)
  | some json_config =>
    if pyTruthy json_config then
      match json_config with
      | .obj kvs =>
        match dictGet kvs fileNameKey with
        | some (.str s) =>
          if strContains s wmoMarker then from_dict json_config
          else .error (.valueError wrongKindMsg)
        | some _ => .error .typeError
        | none => .error .keyError
      | _ => .error .typeError
    else .error (.runtimeError emptyMetadataMsg)

/-- The diagnostic vertex-count loop of `import_wmo` (source lines
284-301): walks every render batch with a global `total_batches` counter
and reads `obj_data.groups[total_batches].verts` (its warnings are prints;
the only modelled effect is the indexing, which raises IndexError when the
obj file has fewer groups than the metadata has batches). -/
def sanity_vert_check (obj_data : ObjData) (jgroups : List JsonWmoGroup) :
    Except PyErr Unit :=
  (jgroups.foldlM (fun (total_batches : Int) (group : JsonWmoGroup) =>
    group.renderBatches.foldlM (fun (tb : Int) _batch => do
      let _ ← pyIndex obj_data.groups (tb + 1)
      .ok (tb + 1)) total_batches) (-1 : Int)).map (fun _ => ())

/-- `import_wmo` (source lines 191-555) up to and including mesh
building: metadata validation, geometry parsing, the diagnostic count
loop, reconciliation, `mat_dict` construction (keys `0..len(materials)-1`)
and one `wmo_setup_blender_object` call per reconciled group.  The
trailing material/shader-network stage acts only on external scene state
and is out of scope. -/
def import_wmo {Color : Type} (wmo_read_color : Int → Color)
    (wmo_read_group_flags : Int → List String) (sidecar : Option PyJson)
    (from_dict : PyJson → Except PyErr JsonWmoMetadata)
    (lines : List (List String)) :
    Except PyErr (List (Option (BuiltObject Color))) := do
  let json_config ← metadata_setup sidecar from_dict
  let obj_data ← read_obj lines
  let _ ← sanity_vert_check obj_data json_config.groups
  let r := repack obj_data json_config.groups
  let mat_dict := (List.range json_config.materials.length).map Int.ofNat
  List.mapM (fun (group : WmoGroup) =>
    wmo_setup_blender_object wmo_read_color wmo_read_group_flags mat_dict group r.2.2) r.1

/-! ### Helper lemmas about the Python-semantics primitives -/

theorem exceptBind_ok {α β : Type} {x : Except PyErr α} {f : α → Except PyErr β} {b : β} :
    (x >>= f) = .ok b ↔ ∃ a, x = .ok a ∧ f a = .ok b := by
  cases x <;> simp [Bind.bind, Except.bind]

theorem exceptBind_error {α β : Type} {x : Except PyErr α} {f : α → Except PyErr β} {e : PyErr} :
    (x >>= f) = .error e ↔ (x = .error e ∨ ∃ a, x = .ok a ∧ f a = .error e) := by
  cases x <;> simp [Bind.bind, Except.bind]

theorem exceptMap_error {α β : Type} {x : Except PyErr α} {f : α → β} {e : PyErr} :
    (x.map f) = .error e ↔ x = .error e := by
  cases x <;> simp [Except.map]

theorem pyIndex_error_eq {α : Type} {l : List α} {i : Int} {e : PyErr}
    (h : pyIndex l i = .error e) : e = .indexError := by
  unfold pyIndex at h
  split at h <;> simp_all

theorem pyInt_error_eq {s : String} {e : PyErr}
    (h : pyInt s = .error e) : e = .valueError pyIntMsg := by
  cases hc : pyIntCore s.toList <;> simp [pyInt, hc] at h <;> simp_all

theorem mapM_error_mem {α β : Type} {f : α → Except PyErr β} :
    ∀ {xs : List α} {e : PyErr}, xs.mapM f = .error e → ∃ x ∈ xs, f x = .error e := by
  intro xs
  induction xs with
  | nil => intro e h; rw [List.mapM_nil] at h; simp [pure, Except.pure] at h
  | cons a as ih =>
    intro e h
    rw [List.mapM_cons] at h
    rcases exceptBind_error.mp h with h1 | ⟨b, _, h2⟩
    · exact ⟨a, List.mem_cons_self a as, h1⟩
    · rcases exceptBind_error.mp h2 with h3 | ⟨bs, _, h4⟩
      · rcases ih h3 with ⟨x, hx, hfx⟩
        exact ⟨x, List.mem_cons_of_mem a hx, hfx⟩
      · simp [pure, Except.pure] at h4

theorem pySetList_length {α : Type} (l : List α) (i : Int) (a : α) :
    (pySetList l i a).length = l.length := by
  unfold pySetList
  split <;> simp

theorem list_take_min {α : Type} (l : List α) (b : Nat) :
    l.take (min b l.length) = l.take b := by
  rcases le_total b l.length with h | h
  · rw [min_eq_left h]
  · rw [min_eq_right h, List.take_length, List.take_of_length_le h]

theorem pyBound_natCast {len x : Nat} : pyBound len x = min x len := by
  unfold pyBound
  rw [if_neg (by exact not_lt.mpr (Int.natCast_nonneg x))]
  omega

theorem pySlice_natCast {α : Type} (l : List α) (a b : Nat) :
    pySlice l a b = (l.drop a).take (b - a) := by
  unfold pySlice
  rw [pyBound_natCast, pyBound_natCast, list_take_min]
  rcases le_total a l.length with h | h
  · rw [min_eq_left h, List.drop_take]
  · rw [min_eq_right h]
    rw [List.drop_eq_nil_of_le (le_trans (by rw [List.length_take]; omega) (le_refl l.length)),
        List.drop_eq_nil_of_le (le_trans h (by omega))]
    simp

theorem pySlice_zero_nonneg {α : Type} (l : List α) (n : Int) (h : 0 ≤ n) :
    pySlice l 0 n = l.take n.toNat := by
  unfold pySlice
  have hb : pyBound l.length n = min n.toNat l.length := by
    unfold pyBound
    rw [if_neg (by exact not_lt.mpr h)]
  have ha : pyBound l.length 0 = 0 := by
    unfold pyBound
    simp
  rw [hb, ha, list_take_min, List.drop_zero]

/-! ### Reconciliation lemmas -/

theorem drop_take_concat {α : Type} (l : List α) (off m n : Nat) :
    (l.drop off).take m ++ (l.drop (off + m)).take n = (l.drop off).take (m + n) := by
  rw [List.take_add]
  congr 1
  rw [List.drop_drop]

theorem repackAux_join (obj : ObjData) :
    ∀ (jgs : List JsonWmoGroup) (off : Nat) (flat : List Int × List Int),
      (((repackAux obj jgs off flat).1.map (fun g => g.mesh_batches)).flatten)
        = (obj.groups.drop off).take ((jgs.map (fun g => g.renderBatches.length)).sum) := by
  intro jgs
  induction jgs with
  | nil => intro off flat; simp [repackAux]
  | cons j rest ih =>
    intro off flat
    by_cases hb : j.renderBatches.length > 0
    · simp only [repackAux, if_pos hb, List.map_cons, List.flatten_cons, List.sum_cons]
      rw [ih, ← Nat.cast_add, pySlice_natCast]
      have hcancel : off + j.renderBatches.length - off = j.renderBatches.length := by omega
      rw [hcancel, drop_take_concat]
    · simp only [repackAux, if_neg hb, List.map_cons, List.flatten_cons, List.sum_cons]
      have hz : j.renderBatches.length = 0 := by omega
      rw [ih, hz]
      simp

theorem repackAux_aliased (obj : ObjData) :
    ∀ (jgs : List JsonWmoGroup) (off : Nat) (flat : List Int × List Int) (g : WmoGroup),
      g ∈ (repackAux obj jgs off flat).1 → 0 < g.batch_count →
      g.colorsAliased = true := by
  intro jgs
  induction jgs with
  | nil => intro off flat g hg _; simp [repackAux] at hg
  | cons j rest ih =>
    intro off flat g hg hbc
    by_cases hb : j.renderBatches.length > 0
    · simp only [repackAux, if_pos hb, List.mem_cons] at hg
      rcases hg with hg | hg
      · rw [hg]
      · exact ih _ _ g hg hbc
    · simp only [repackAux, if_neg hb, List.mem_cons] at hg
      rcases hg with hg | hg
      · rw [hg] at hbc; simp at hbc
      · exact ih _ _ g hg hbc

/-! ### Claim theorems -/

/-- C4: reconciliation partitions the parsed FaceGroup list contiguously
and in metadata order; when the batch counts sum to the FaceGroup count,
concatenating the claimed ranges over all WMO groups (batchless groups
claim nothing) reproduces the original FaceGroup list with no gaps or
overlaps. -/
theorem c4_reconciliation_partitions_facegroups (obj : ObjData)
    (jgs : List JsonWmoGroup)
    (h : (jgs.map (fun g => g.renderBatches.length)).sum = obj.groups.length) :
    (((repack obj jgs).1.map (fun g => g.mesh_batches)).flatten) = obj.groups := by
  unfold repack
  rw [repackAux_join, h]
  simp

def c4obj : ObjData :=
  { groups := [{ name := some "a" }, { name := some "b" }, { name := some "c" }] }

def c4jgs : List JsonWmoGroup :=
  [{ renderBatches := [{ lastVertex := 1 }, { lastVertex := 3 }] },
   { renderBatches := [] },
   { renderBatches := [{ lastVertex := 5 }] }]

/-- C4 witness: a concrete 3-face-group file split as 2 + 0 + 1. -/
theorem c4_reconciliation_partitions_facegroups_witness :
    (((repack c4obj c4jgs).1.map (fun g => g.mesh_batches)).flatten) = c4obj.groups :=
  c4_reconciliation_partitions_facegroups c4obj c4jgs (by decide)

/-- C2 (amended): each nonempty WmoGroup's `colors` aliases the single
shared cumulative flat-color buffer, so after reconciliation every
nonempty group observes the same final buffer (all groups' contributions
concatenated), not a private slice of its own vertex range. -/
theorem c2_colors_alias_shared_buffer (obj : ObjData) (jgs : List JsonWmoGroup)
    (g : WmoGroup) (hg : g ∈ (repack obj jgs).1) (hbc : 0 < g.batch_count) :
    g.colors (repack obj jgs).2.2
      = [(repack obj jgs).2.2.1, (repack obj jgs).2.2.2, []] := by
  have ha := repackAux_aliased obj jgs 0 ([], []) g hg hbc
  simp [WmoGroup.colors, ha]

def c2obj : ObjData := { groups := [{ verts := {0} }, { verts := {0} }] }
def c2g0 : JsonWmoGroup :=
  { renderBatches := [{ lastVertex := 0 }], vertexColours := [[10]] }
def c2g1 : JsonWmoGroup :=
  { renderBatches := [{ lastVertex := 0 }], vertexColours := [[20]] }

/-- C2 counterexample: with two one-vertex groups (colors `[10]` and
`[20]`), the first group's color table observed after full reconciliation
is the cumulative `[[10, 20], [0, 0], []]`, not its own one-entry slice
`[[10], [0], []]` — which is exactly what it observes when it is the only
group, so reconciling the later group changed it. -/
theorem c2_group_colors_not_own_slice :
    ((repack c2obj [c2g0, c2g1]).1.headD default).colors
        (repack c2obj [c2g0, c2g1]).2.2 = [[10, 20], [0, 0], []] ∧
    ((repack c2obj [c2g0]).1.headD default).colors
        (repack c2obj [c2g0]).2.2 = [[10], [0], []] ∧
    ([[10, 20], [0, 0], []] : List (List Int)) ≠ [[10], [0], []] :=
  ⟨by rfl, by rfl, by decide⟩

/-- C2 witness: the amended claim applied to the concrete one-group run. -/
theorem c2_colors_alias_shared_buffer_witness :
    ((repack c2obj [c2g0]).1.headD default).colors (repack c2obj [c2g0]).2.2
      = [(repack c2obj [c2g0]).2.2.1, (repack c2obj [c2g0]).2.2.2, []] :=
  c2_colors_alias_shared_buffer c2obj [c2g0] _ (by decide) (by decide)

/-- C5: the color table a nonempty group contributes during
reconciliation, with `n = lastVertex + 1` of its final render batch: two
raw layers → both sliced to `[0, n)`; one raw layer → sliced plus an
all-zero layer of length `n`; zero raw layers with positive group vertex
count → two zero layers of length `n`; zero layers and zero vertices →
both left empty. -/
theorem c5_color_layer_synthesis (group : JsonWmoGroup) (gvc : Nat) (lv : Int)
    (hdef : lv = (group.renderBatches.getLastD {}).lastVertex + 1)
    (hlv : 0 ≤ lv) :
    (∀ c0 c1 : List Int, group.vertexColours = [c0, c1] →
      color_contrib group.vertexColours lv gvc
        = (c0.take lv.toNat, c1.take lv.toNat)) ∧
    (∀ c0 : List Int, group.vertexColours = [c0] →
      color_contrib group.vertexColours lv gvc
        = (c0.take lv.toNat, List.replicate lv.toNat 0)) ∧
    (group.vertexColours = [] → 0 < gvc →
      color_contrib group.vertexColours lv gvc
        = (List.replicate lv.toNat 0, List.replicate lv.toNat 0)) ∧
    (group.vertexColours = [] → gvc = 0 →
      color_contrib group.vertexColours lv gvc = ([], [])) := by
  refine ⟨?_, ?_, ?_, ?_⟩
  · intro c0 c1 hv
    rw [hv]
    have he : color_contrib [c0, c1] lv gvc = (pySlice c0 0 lv, pySlice c1 0 lv) := rfl
    rw [he, pySlice_zero_nonneg c0 lv hlv, pySlice_zero_nonneg c1 lv hlv]
  · intro c0 hv
    rw [hv]
    have he : color_contrib [c0] lv gvc
        = (pySlice c0 0 lv, List.replicate lv.toNat 0) := rfl
    rw [he, pySlice_zero_nonneg c0 lv hlv]
  · intro hv hgvc
    rw [hv]
    have he : color_contrib [] lv gvc
        = if gvc > 0 then (List.replicate lv.toNat 0, List.replicate lv.toNat 0)
          else ([], []) := rfl
    rw [he, if_pos hgvc]
  · intro hv hgvc
    rw [hv, hgvc]
    rfl

def c5group0 : JsonWmoGroup := { renderBatches := [{ lastVertex := 4 }] }
def c5group1 : JsonWmoGroup :=
  { renderBatches := [{ lastVertex := 4 }], vertexColours := [[1, 2, 3, 4, 5]] }

/-- C5 witness: vertex count 5 with zero and with one raw color layer. -/
theorem c5_color_layer_synthesis_witness :
    color_contrib ([] : List (List Int)) 5 5
      = (List.replicate 5 0, List.replicate 5 0) ∧
    color_contrib [[1, 2, 3, 4, 5]] 5 5
      = ([1, 2, 3, 4, 5], List.replicate 5 0) :=
  ⟨(c5_color_layer_synthesis c5group0 5 5 (by decide) (by decide)).2.2.1 rfl (by decide),
   (c5_color_layer_synthesis c5group1 5 5 (by decide) (by decide)).2.1 [1, 2, 3, 4, 5] rfl⟩

/-- C6: the material id used for a batch's face material-slot assignment
is `possibleBox2[2]` exactly when the batch's flags equal 2, and the
declared `materialID` otherwise; in particular `flags == 2` with
`possibleBox2 == [_, _, 7]` resolves to 7 whatever `materialID` holds. -/
theorem c6_material_sentinel (batch : JsonWmoRenderBatch) :
    (batch.flags = 2 → resolve_mat_ID batch = pyIndex batch.possibleBox2 2) ∧
    (batch.flags ≠ 2 → resolve_mat_ID batch = .ok batch.materialID) ∧
    (∀ x y : Int, batch.flags = 2 → batch.possibleBox2 = [x, y, 7] →
      resolve_mat_ID batch = .ok 7) := by
  refine ⟨?_, ?_, ?_⟩
  · intro h
    simp [resolve_mat_ID, h]
  · intro h
    simp [resolve_mat_ID, h]
  · intro x y hf hbox
    simp [resolve_mat_ID, hf, hbox]
    rfl

/-- C6 witness: flags 2, possibleBox2 `[9, 9, 7]`, materialID 3 → 7. -/
theorem c6_material_sentinel_witness :
    resolve_mat_ID { materialID := 3, flags := 2, possibleBox2 := [9, 9, 7] } = .ok 7 :=
  (c6_material_sentinel { materialID := 3, flags := 2, possibleBox2 := [9, 9, 7] }).2.2
    9 9 rfl rfl

/-- C9: the lighting classification is a total function of the decoded
flag set: both INTERIOR and EXTERIOR → transition, INTERIOR only →
interior, EXTERIOR only → exterior, neither → unlit. -/
theorem c9_lighting_classification (flags : List String) :
    ("INTERIOR" ∈ flags → "EXTERIOR" ∈ flags → wmo_lighting_type flags = .transition) ∧
    ("INTERIOR" ∈ flags → "EXTERIOR" ∉ flags → wmo_lighting_type flags = .interior) ∧
    ("INTERIOR" ∉ flags → "EXTERIOR" ∈ flags → wmo_lighting_type flags = .exterior) ∧
    ("INTERIOR" ∉ flags → "EXTERIOR" ∉ flags → wmo_lighting_type flags = .unlit) := by
  refine ⟨?_, ?_, ?_, ?_⟩ <;> intro h1 h2 <;> simp [wmo_lighting_type, h1, h2]

/-- C9 witness: the four classifications at concrete flag sets. -/
theorem c9_lighting_classification_witness :
    wmo_lighting_type ["INTERIOR", "EXTERIOR"] = .transition ∧
    wmo_lighting_type ["INTERIOR"] = .interior ∧
    wmo_lighting_type ["EXTERIOR"] = .exterior ∧
    wmo_lighting_type [] = .unlit :=
  ⟨(c9_lighting_classification _).1 (by decide) (by decide),
   (c9_lighting_classification _).2.1 (by decide) (by decide),
   (c9_lighting_classification _).2.2.1 (by decide) (by decide),
   (c9_lighting_classification _).2.2.2 (by decide) (by decide)⟩

/-! ### Parser lemmas -/

theorem pyIndex_nil {α : Type} (i : Int) :
    pyIndex ([] : List α) i = .error .indexError := by
  unfold pyIndex
  rw [dif_neg]
  intro hc
  exact absurd hc.2 (by simp)

theorem pyIndex_ok_of_bounds {α : Type} {l : List α} {i : Int}
    (h0 : 0 ≤ i) (hl : i < (l.length : Int)) :
    ∃ hlt : i.toNat < l.length, pyIndex l i = .ok (l.get ⟨i.toNat, hlt⟩) := by
  have hidx : pyIdx l i = i := by
    unfold pyIdx
    rw [if_neg (by omega)]
  have hlt : i.toNat < l.length := by omega
  refine ⟨hlt, ?_⟩
  unfold pyIndex
  rw [dif_pos]
  · simp [hidx]
  · rw [hidx]
    exact ⟨h0, hlt⟩

theorem pyIndex_one {α : Type} (a b : α) (l : List α) :
    pyIndex (a :: b :: l) 1 = .ok b := by
  rcases @pyIndex_ok_of_bounds α (a :: b :: l) 1 (by norm_num)
      (by rw [List.length_cons, List.length_cons]; push_cast; omega) with ⟨hlt, he⟩
  rw [he]
  rfl

theorem readLine_ok_delta {st : ParseState} {l : List String} {st' : ParseState}
    (h : readLine st l = .ok st') :
    st'.groupIndex = st.groupIndex + (if l.headD emptyTok == "g" then (1 : Int) else 0) ∧
    st'.data.groups.length
      = st.data.groups.length + (if l.headD emptyTok == "g" then 1 else 0) := by
  cases l with
  | nil =>
    simp only [readLine] at h
    injection h with h2
    subst h2
    simp [emptyTok]
  | cons a as =>
    simp only [readLine, List.headD_cons] at h ⊢
    by_cases hb1 : (a == "mtllib") = true
    · rw [if_pos hb1] at h
      obtain ⟨t, _, h2⟩ := exceptBind_ok.mp h
      injection h2 with h2
      subst h2
      have ha := eq_of_beq hb1
      subst ha
      simp
    rw [if_neg hb1] at h
    by_cases hb2 : (a == "v") = true
    · rw [if_pos hb2] at h
      injection h with h2
      subst h2
      have ha := eq_of_beq hb2
      subst ha
      simp
    rw [if_neg hb2] at h
    by_cases hb3 : (a == "vn") = true
    · rw [if_pos hb3] at h
      injection h with h2
      subst h2
      have ha := eq_of_beq hb3
      subst ha
      simp
    rw [if_neg hb3] at h
    by_cases hb4 : (a == "vt3") = true
    · rw [if_pos hb4] at h
      injection h with h2
      subst h2
      have ha := eq_of_beq hb4
      subst ha
      simp
    rw [if_neg hb4] at h
    by_cases hb5 : (a == "vt2") = true
    · rw [if_pos hb5] at h
      obtain ⟨t, _, h2⟩ := exceptBind_ok.mp h
      have ha := eq_of_beq hb5
      subst ha
      split at h2 <;> (injection h2 with h2; subst h2; simp)
    rw [if_neg hb5] at h
    by_cases hb6 : (a == "vt") = true
    · rw [if_pos hb6] at h
      injection h with h2
      subst h2
      have ha := eq_of_beq hb6
      subst ha
      simp
    rw [if_neg hb6] at h
    by_cases hb7 : (a == "f") = true
    · rw [if_pos hb7] at h
      have ha := eq_of_beq hb7
      subst ha
      by_cases hgi : st.groupIndex < 0
      · rw [if_pos hgi] at h
        simp at h
      rw [if_neg hgi] at h
      obtain ⟨fv, _, h⟩ := exceptBind_ok.mp h
      obtain ⟨f0, _, h⟩ := exceptBind_ok.mp h
      obtain ⟨f1, _, h⟩ := exceptBind_ok.mp h
      obtain ⟨f2, _, h⟩ := exceptBind_ok.mp h
      obtain ⟨g, _, h⟩ := exceptBind_ok.mp h
      injection h with h2
      subst h2
      simp [pySetList_length]
    rw [if_neg hb7] at h
    by_cases hb8 : (a == "o") = true
    · rw [if_pos hb8] at h
      obtain ⟨t, _, h2⟩ := exceptBind_ok.mp h
      injection h2 with h2
      subst h2
      have ha := eq_of_beq hb8
      subst ha
      simp
    rw [if_neg hb8] at h
    by_cases hb9 : (a == "g") = true
    · rw [if_pos hb9] at h
      obtain ⟨t, _, h2⟩ := exceptBind_ok.mp h
      obtain ⟨g, _, h2⟩ := exceptBind_ok.mp h2
      injection h2 with h2
      subst h2
      have ha := eq_of_beq hb9
      subst ha
      simp [pySetList_length]
    rw [if_neg hb9] at h
    by_cases hb10 : (a == "usemtl") = true
    · rw [if_pos hb10] at h
      obtain ⟨t, _, h2⟩ := exceptBind_ok.mp h
      obtain ⟨g, _, h2⟩ := exceptBind_ok.mp h2
      injection h2 with h2
      subst h2
      have ha := eq_of_beq hb10
      subst ha
      simp [pySetList_length]
    rw [if_neg hb10] at h
    injection h with h2
    subst h2
    rw [if_neg hb9, if_neg hb9]
    simp

theorem nr_ok {β : Type} (b : β) :
    ∀ m, (Except.ok b : Except PyErr β) ≠ .error (.runtimeError m) := by
  intro m h
  simp at h

theorem nr_pyIndex {α : Type} (l : List α) (i : Int) :
    ∀ m, pyIndex l i ≠ .error (.runtimeError m) := by
  intro m h
  have := pyIndex_error_eq h
  simp at this

theorem nr_pyInt (s : String) :
    ∀ m, pyInt s ≠ .error (.runtimeError m) := by
  intro m h
  have := pyInt_error_eq h
  simp at this

theorem nr_bind {α β : Type} {x : Except PyErr α} {f : α → Except PyErr β}
    (hx : ∀ m, x ≠ .error (.runtimeError m))
    (hf : ∀ a m, f a ≠ .error (.runtimeError m)) :
    ∀ m, (x >>= f) ≠ .error (.runtimeError m) := by
  intro m hc
  rcases exceptBind_error.mp hc with h | ⟨a, _, h⟩
  · exact hx m h
  · exact hf a m h

theorem nr_mapM {α β : Type} {f : α → Except PyErr β}
    (hf : ∀ a m, f a ≠ .error (.runtimeError m)) (xs : List α) :
    ∀ m, xs.mapM f ≠ .error (.runtimeError m) := by
  intro m hc
  rcases mapM_error_mem hc with ⟨x, _, hx⟩
  exact hf x m hx

theorem nr_ite {β : Type} {c : Prop} [Decidable c] {x y : Except PyErr β}
    (hx : ∀ m, x ≠ .error (.runtimeError m))
    (hy : ∀ m, y ≠ .error (.runtimeError m)) :
    ∀ m, (if c then x else y) ≠ .error (.runtimeError m) := by
  intro m
  split
  · exact hx m
  · exact hy m

/-- The only RuntimeError `readLine` can raise is the faces-before-group
failure, and only from an `f` record with no group open. -/
theorem readLine_error_runtime {st : ParseState} {l : List String} {m : String}
    (h : readLine st l = .error (.runtimeError m)) :
    l.headD emptyTok = "f" ∧ st.groupIndex < 0 ∧ m = facesBeforeGroupMsg := by
  cases l with
  | nil => simp [readLine] at h
  | cons a as =>
    simp only [readLine, List.headD_cons] at h ⊢
    by_cases hb1 : (a == "mtllib") = true
    · rw [if_pos hb1] at h
      exact absurd h (nr_bind (nr_pyIndex _ _) (fun t => nr_ok _) m)
    rw [if_neg hb1] at h
    by_cases hb2 : (a == "v") = true
    · rw [if_pos hb2] at h
      exact absurd h (nr_ok _ m)
    rw [if_neg hb2] at h
    by_cases hb3 : (a == "vn") = true
    · rw [if_pos hb3] at h
      exact absurd h (nr_ok _ m)
    rw [if_neg hb3] at h
    by_cases hb4 : (a == "vt3") = true
    · rw [if_pos hb4] at h
      exact absurd h (nr_ok _ m)
    rw [if_neg hb4] at h
    by_cases hb5 : (a == "vt2") = true
    · rw [if_pos hb5] at h
      exact absurd h (nr_bind (nr_pyIndex _ _) (fun t => nr_ite (nr_ok _) (nr_ok _)) m)
    rw [if_neg hb5] at h
    by_cases hb6 : (a == "vt") = true
    · rw [if_pos hb6] at h
      exact absurd h (nr_ok _ m)
    rw [if_neg hb6] at h
    by_cases hb7 : (a == "f") = true
    · rw [if_pos hb7] at h
      by_cases hgi : st.groupIndex < 0
      · rw [if_pos hgi] at h
        refine ⟨eq_of_beq hb7, hgi, ?_⟩
        simp only [Except.error.injEq, PyErr.runtimeError.injEq] at h
        exact h.symm
      rw [if_neg hgi] at h
      exact absurd h (nr_bind (nr_mapM (fun tok => nr_pyInt _) _)
        (fun fv => nr_bind (nr_pyIndex _ _) (fun f0 => nr_bind (nr_pyIndex _ _)
          (fun f1 => nr_bind (nr_pyIndex _ _) (fun f2 => nr_bind (nr_pyIndex _ _)
            (fun g => nr_ok _))))) m)
    rw [if_neg hb7] at h
    by_cases hb8 : (a == "o") = true
    · rw [if_pos hb8] at h
      exact absurd h (nr_bind (nr_pyIndex _ _) (fun t => nr_ok _) m)
    rw [if_neg hb8] at h
    by_cases hb9 : (a == "g") = true
    · rw [if_pos hb9] at h
      exact absurd h (nr_bind (nr_pyIndex _ _)
        (fun t => nr_bind (nr_pyIndex _ _) (fun g => nr_ok _)) m)
    rw [if_neg hb9] at h
    by_cases hb10 : (a == "usemtl") = true
    · rw [if_pos hb10] at h
      exact absurd h (nr_bind (nr_pyIndex _ _)
        (fun t => nr_bind (nr_pyIndex _ _) (fun g => nr_ok _)) m)
    rw [if_neg hb10] at h
    exact absurd h (nr_ok _ m)

/-- An `f` record reached with no group open raises the
faces-before-group RuntimeError, whatever its remaining tokens. -/
theorem readLine_f_before_group (st : ParseState) (tl : List String)
    (hgi : st.groupIndex < 0) :
    readLine st ("f" :: tl) = .error (.runtimeError facesBeforeGroupMsg) := by
  simp only [readLine]
  rw [if_neg (by decide), if_neg (by decide), if_neg (by decide), if_neg (by decide),
      if_neg (by decide), if_neg (by decide), if_pos (by decide), if_pos hgi]

theorem run_append (xs ys : List (List String)) : ∀ st : ParseState,
    read_obj_lines (xs ++ ys) st =
      match read_obj_lines xs st with
      | .ok st1 => read_obj_lines ys st1
      | .error e => .error e := by
  induction xs with
  | nil => intro st; simp [read_obj_lines]
  | cons x xs ih =>
    intro st
    simp only [List.cons_append, read_obj_lines]
    cases readLine st x <;> simp [ih]

theorem run_ok_delta : ∀ (lines : List (List String)) (st st' : ParseState),
    read_obj_lines lines st = .ok st' →
    st'.groupIndex
      = st.groupIndex + (lines.countP (fun l => l.headD emptyTok == "g") : Int) ∧
    st'.data.groups.length
      = st.data.groups.length + lines.countP (fun l => l.headD emptyTok == "g") := by
  intro lines
  induction lines with
  | nil =>
    intro st st' h
    simp only [read_obj_lines] at h
    injection h with h2
    subst h2
    simp
  | cons l ls ih =>
    intro st st' h
    simp only [read_obj_lines] at h
    cases hl : readLine st l with
    | error e => rw [hl] at h; simp at h
    | ok st1 =>
      rw [hl] at h
      obtain ⟨d1, d2⟩ := readLine_ok_delta hl
      obtain ⟨e1, e2⟩ := ih st1 st' h
      rw [List.countP_cons]
      constructor
      · rw [e1, d1]
        by_cases hg : (l.headD emptyTok == "g") = true <;> simp [hg] <;> push_cast <;> ring
      · rw [e2, d2]
        by_cases hg : (l.headD emptyTok == "g") = true <;> simp [hg] <;> omega

theorem run_error_split : ∀ (lines : List (List String)) (st : ParseState) (e : PyErr),
    read_obj_lines lines st = .error e →
    ∃ pre fl rest st1, lines = pre ++ fl :: rest ∧
      read_obj_lines pre st = .ok st1 ∧ readLine st1 fl = .error e := by
  intro lines
  induction lines with
  | nil => intro st e h; simp [read_obj_lines] at h
  | cons l ls ih =>
    intro st e h
    simp only [read_obj_lines] at h
    cases hl : readLine st l with
    | error e2 =>
      rw [hl] at h
      injection h with h2
      subst h2
      exact ⟨[], l, ls, st, rfl, rfl, hl⟩
    | ok st1 =>
      rw [hl] at h
      obtain ⟨pre, fl, rest, st2, hsplit, hrun, hline⟩ := ih st1 e h
      refine ⟨l :: pre, fl, rest, st2, by rw [hsplit]; rfl, ?_, hline⟩
      simp [read_obj_lines, hl, hrun]

/-- C7: the parser fails with the MalformedGeometry error about faces
before a group exactly when an `f` record is reached (its preceding
records having processed without error) with no `g` record before it;
conversely, once at least one `g` precedes every `f`, this failure cannot
occur — such faces are recorded, not rejected. -/
theorem c7_faces_before_group (lines : List (List String)) :
    read_obj lines = .error (.runtimeError facesBeforeGroupMsg) ↔
      ∃ pre fl rest st1, lines = pre ++ fl :: rest ∧
        read_obj_lines pre initParseState = .ok st1 ∧
        fl.headD emptyTok = "f" ∧
        ∀ l ∈ pre, l.headD emptyTok ≠ "g" := by
  constructor
  · intro h
    have hrun0 : read_obj_lines lines initParseState
        = .error (.runtimeError facesBeforeGroupMsg) := exceptMap_error.mp h
    obtain ⟨pre, fl, rest, st1, hsplit, hrun, hline⟩ :=
      run_error_split lines initParseState _ hrun0
    obtain ⟨hf, hgi, _⟩ := readLine_error_runtime hline
    have hcount := (run_ok_delta pre initParseState st1 hrun).1
    have hinit : initParseState.groupIndex = -1 := rfl
    have hc0 : pre.countP (fun l => l.headD emptyTok == "g") = 0 := by omega
    refine ⟨pre, fl, rest, st1, hsplit, hrun, hf, ?_⟩
    intro l hl hlg
    have hnp := List.countP_eq_zero.mp hc0 l hl
    exact hnp (by rw [hlg]; decide)
  · rintro ⟨pre, fl, rest, st1, rfl, hrun, hf, hng⟩
    obtain ⟨ftl, rfl⟩ : ∃ ftl, fl = "f" :: ftl := by
      cases fl with
      | nil => exact absurd hf (by decide)
      | cons x xs =>
        rw [List.headD_cons] at hf
        exact ⟨xs, by rw [hf]⟩
    have hcount := (run_ok_delta pre initParseState st1 hrun).1
    have hc0 : pre.countP (fun l => l.headD emptyTok == "g") = 0 := by
      apply List.countP_eq_zero.mpr
      intro a ha
      simpa using hng a ha
    have hinit : initParseState.groupIndex = -1 := rfl
    have hgi : st1.groupIndex < 0 := by omega
    have hrl := readLine_f_before_group st1 ftl hgi
    unfold read_obj
    rw [run_append, hrun]
    simp [read_obj_lines, hrl, Except.map]

/-- C7 witness: a bare `f` record as first line. -/
theorem c7_faces_before_group_witness :
    read_obj [["f", "1/1/1", "2/2/2", "3/3/3"]]
      = .error (.runtimeError facesBeforeGroupMsg) :=
  (c7_faces_before_group [["f", "1/1/1", "2/2/2", "3/3/3"]]).mpr
    ⟨[], ["f", "1/1/1", "2/2/2", "3/3/3"], [], initParseState, rfl, rfl, rfl,
     by simp⟩

/-- C10: a `usemtl` record before any `g` record makes the parser raise
an uncaught IndexError (`groups[-1]` on the empty group list), not the
documented MalformedGeometry error; with a group open (0 ≤ groupIndex <
len(groups), as after any `g`), the record is handled without error by
tagging the current group. -/
theorem c10_usemtl_before_group :
    (∀ (pre : List (List String)) (u : List String) (rest : List (List String))
        (st1 : ParseState),
      read_obj_lines pre initParseState = .ok st1 →
      (∀ l ∈ pre, l.headD emptyTok ≠ "g") →
      u.headD emptyTok = "usemtl" →
      read_obj (pre ++ u :: rest) = .error .indexError) ∧
    (∀ (st : ParseState) (mname : String) (tl : List String),
      0 ≤ st.groupIndex → st.groupIndex < (st.data.groups.length : Int) →
      ∃ st2, readLine st ("usemtl" :: mname :: tl) = .ok st2 ∧
        st2.groupIndex = st.groupIndex ∧
        st2.data.groups.length = st.data.groups.length) := by
  constructor
  · intro pre u rest st1 hrun hng hu
    obtain ⟨utl, rfl⟩ : ∃ utl, u = "usemtl" :: utl := by
      cases u with
      | nil => exact absurd hu (by decide)
      | cons x xs =>
        rw [List.headD_cons] at hu
        exact ⟨xs, by rw [hu]⟩
    have hcount := run_ok_delta pre initParseState st1 hrun
    have hc0 : pre.countP (fun l => l.headD emptyTok == "g") = 0 := by
      apply List.countP_eq_zero.mpr
      intro a ha
      simpa using hng a ha
    have hinit : initParseState.groupIndex = -1 := rfl
    have hinitlen : initParseState.data.groups.length = 0 := rfl
    have hgi : st1.groupIndex = -1 := by
      have := hcount.1
      omega
    have hnil : st1.data.groups = [] := by
      apply List.length_eq_zero.mp
      have := hcount.2
      omega
    have hred : readLine st1 ("usemtl" :: utl) = (do
        let t ← pyIndex ("usemtl" :: utl) 1
        let g ← pyIndex st1.data.groups st1.groupIndex
        Except.ok { st1 with
          data.groups := pySetList st1.data.groups st1.groupIndex
            { g with mtlname := some t } }) := by
      simp only [readLine]
      rw [if_neg (by decide), if_neg (by decide), if_neg (by decide),
          if_neg (by decide), if_neg (by decide), if_neg (by decide),
          if_neg (by decide), if_neg (by decide), if_neg (by decide),
          if_pos (by decide)]
    have herr : readLine st1 ("usemtl" :: utl) = .error .indexError := by
      rw [hred]
      cases utl with
      | nil => rfl
      | cons mn tl =>
        rw [pyIndex_one, hnil, hgi, pyIndex_nil]
        rfl
    unfold read_obj
    rw [run_append, hrun]
    simp [read_obj_lines, herr, Except.map]
  · intro st mname tl h0 hlen
    obtain ⟨hlt, hge⟩ := @pyIndex_ok_of_bounds _ st.data.groups st.groupIndex h0 hlen
    refine ⟨{ st with
        data.groups := pySetList st.data.groups st.groupIndex
          { (st.data.groups.get ⟨st.groupIndex.toNat, hlt⟩) with mtlname := some mname } },
      ?_, rfl, by simp [pySetList_length]⟩
    simp only [readLine]
    rw [if_neg (by decide), if_neg (by decide), if_neg (by decide),
        if_neg (by decide), if_neg (by decide), if_neg (by decide),
        if_neg (by decide), if_neg (by decide), if_neg (by decide),
        if_pos (by decide)]
    rw [pyIndex_one, hge]
    rfl

/-- C10 witness: `usemtl` as first record raises IndexError; after a `g`
record it is handled without error. -/
theorem c10_usemtl_before_group_witness :
    read_obj [["usemtl", "mat"], ["g", "grp"]] = .error .indexError ∧
    ∃ st2, readLine { data := { groups := [{}] }, groupIndex := 0 }
        ["usemtl", "mat", "x"] = .ok st2 ∧
      st2.groupIndex = 0 ∧ st2.data.groups.length = 1 :=
  ⟨c10_usemtl_before_group.1 [] ["usemtl", "mat"] [["g", "grp"]] initParseState
      rfl (by simp) rfl,
   c10_usemtl_before_group.2 { data := { groups := [{}] }, groupIndex := 0 }
      "mat" ["x"] (by decide) (by decide)⟩

/-- C8: with a missing sidecar, a falsy metadata document, or a fileName
lacking the ".wmo" marker, the import fails fatally with the respective
error before the structural decode runs (the result is the same for every
decoder `from_dict`) and before any geometry is consumed (the result is
the same for every geometry input `lines`). -/
theorem c8_metadata_validation {Color : Type} (wrc : Int → Color)
    (wrgf : Int → List String)
    (from_dict : PyJson → Except PyErr JsonWmoMetadata) :
    (∀ lines, import_wmo wrc wrgf none from_dict lines
        = .error (.runtimeError missingMetadataMsg)) ∧
    (∀ (j : PyJson) lines, pyTruthy j = false →
        import_wmo wrc wrgf (some j) from_dict lines
          = .error (.runtimeError emptyMetadataMsg)) ∧
    (∀ (kvs : List (String × PyJson)) (s : String) lines,
        pyTruthy (.obj kvs) = true →
        dictGet kvs fileNameKey = some (.str s) →
        strContains s wmoMarker = false →
        import_wmo wrc wrgf (some (.obj kvs)) from_dict lines
          = .error (.valueError wrongKindMsg)) := by
  refine ⟨?_, ?_, ?_⟩
  · intro lines
    rfl
  · intro j lines hj
    have hm : metadata_setup (some j) from_dict
        = .error (.runtimeError emptyMetadataMsg) := by
      simp [metadata_setup, hj]
    unfold import_wmo
    rw [exceptBind_error]
    exact Or.inl hm
  · intro kvs s lines ht hfn hwm
    have hm : metadata_setup (some (.obj kvs)) from_dict
        = .error (.valueError wrongKindMsg) := by
      simp [metadata_setup, ht, hfn, hwm]
    unfold import_wmo
    rw [exceptBind_error]
    exact Or.inl hm

/-- C8 witness: the three failures at concrete inputs, independent of a
decoder that would reject everything. -/
theorem c8_metadata_validation_witness :
    import_wmo (fun (c : Int) => c) (fun _ => []) none
        (fun _ => .error .typeError) []
      = .error (.runtimeError missingMetadataMsg) ∧
    import_wmo (fun (c : Int) => c) (fun _ => []) (some (.obj []))
        (fun _ => .error .typeError) []
      = .error (.runtimeError emptyMetadataMsg) ∧
    import_wmo (fun (c : Int) => c) (fun _ => [])
        (some (.obj [(fileNameKey, .str "house.m2")]))
        (fun _ => .error .typeError) []
      = .error (.valueError wrongKindMsg) :=
  ⟨(c8_metadata_validation (fun (c : Int) => c) (fun _ => [])
      (fun _ => .error .typeError)).1 [],
   (c8_metadata_validation (fun (c : Int) => c) (fun _ => [])
      (fun _ => .error .typeError)).2.1 (.obj []) [] rfl,
   (c8_metadata_validation (fun (c : Int) => c) (fun _ => [])
      (fun _ => .error .typeError)).2.2 [(fileNameKey, .str "house.m2")]
      "house.m2" [] rfl rfl rfl⟩

def c1lines : List (List String) :=
  [["g", "grp"],
   ["v", "0", "0", "0"], ["v", "1", "0", "0"], ["v", "2", "0", "0"],
   ["vt", "0.0", "0.0"], ["vt", "0.5", "0.0"], ["vt", "0.5", "0.5"],
   ["f", "0/0/0", "1/1/1", "2/2/2"]]

def c1meta : JsonWmoMetadata :=
  { fileName := "test.wmo",
    groups := [{ renderBatches := [{ firstVertex := 0, lastVertex := 2 }] }],
    materials := [{}] }

def c1sidecar : PyJson := .obj [(fileNameKey, .str "test.wmo")]

/-- C1 (code bug): the parser accepts a face whose first vertex index is
0 — recording the face `(0, 1, 2)` with no MalformedGeometry — and mesh
building then silently dereferences `obj_data.verts[0 - 1]`, i.e. the
LAST vertex of the file (Python negative indexing), instead of rejecting
the invalid index: the import completes and the first created mesh vertex
sits at the third source vertex's position. -/
theorem c1_zero_index_silently_reads_last_vertex :
    (read_obj c1lines).map (fun d => d.groups.map (fun g => g.faces))
      = .ok [[(0, 1, 2)]] ∧
    (import_wmo (fun (c : Int) => c) (fun _ => []) (some c1sidecar)
        (fun _ => .ok c1meta) c1lines).map
      (fun l => l.map (Option.map (fun o => o.bm.verts.map (fun v => v.pos))))
      = .ok [some [["2", "0", "0"], ["0", "0", "0"], ["1", "0", "0"]]] :=
  ⟨by rfl, by rfl⟩

def c3lines : List (List String) :=
  [["g", "grp"],
   ["v", "0", "0", "0"], ["v", "1", "0", "0"], ["v", "2", "0", "0"],
   ["vt", "0.0", "0.0"], ["vt", "0.5", "0.0"], ["vt", "0.5", "0.5"],
   ["f", "1/1/1", "2/2/2", "3/3/3"],
   ["f", "1/1/1", "2/2/2", "3/3/3"]]

def c3meta : JsonWmoMetadata :=
  { fileName := "test.wmo",
    groups := [{ renderBatches := [{ firstVertex := 0, lastVertex := -1 }] }],
    materials := [{}] }

def c3sidecar : PyJson := .obj [(fileNameKey, .str "test.wmo")]

/-- C3 counterexample: a reconciled group whose color table is empty
(its single batch declares `lastVertex = -1`, so nothing is appended to
the shared buffer and `do_colors` is false) and whose batch repeats the
same face: the duplicate-face recovery path executes
`colors[v1] = colors[v_dict[face[0]]]` with an empty stash and the
whole run raises an uncaught KeyError — the conflict IS surfaced to the
caller. -/
theorem c3_duplicate_face_keyerror_without_colors :
    import_wmo (fun (c : Int) => c) (fun _ => []) (some c3sidecar)
        (fun _ => .ok c3meta) c3lines
      = .error .keyError := by rfl

/-- C3 (amended): for a reconciled group whose color table is nonempty
(so vertex colors were stashed), a second face with a vertex-index triple
identical to an already-created face in the same batch does not raise:
the recovery creates three new non-shared vertices at the same source
positions (hence the position list `[p1, p2, p3, p1, p2, p3]`) and the
build completes with 3 + 3 vertices and 2 faces, for every choice of
vertex positions, UVs, raw colors and color decoder. -/
theorem c3_duplicate_face_recovery {Color : Type} (wrc : Int → Color)
    (p1 p2 p3 u1 u2 u3 : List String) (k1 k2 k3 : Int) :
    (wmo_setup_blender_object wrc (fun _ => []) [0]
        ((repack { verts := [p1, p2, p3], uv := [u1, u2, u3],
                   groups := [{ verts := {0, 1, 2},
                                faces := [(1, 2, 3), (1, 2, 3)] }] }
            [{ renderBatches := [{ firstVertex := 0, lastVertex := 2 }],
               vertexColours := [[k1, k2, k3]] }]).1.headD default)
        ((repack { verts := [p1, p2, p3], uv := [u1, u2, u3],
                   groups := [{ verts := {0, 1, 2},
                                faces := [(1, 2, 3), (1, 2, 3)] }] }
            [{ renderBatches := [{ firstVertex := 0, lastVertex := 2 }],
               vertexColours := [[k1, k2, k3]] }]).2.2)).map
      (Option.map (fun o =>
        (o.bm.verts.length, o.bm.faces.length, o.bm.verts.map (fun v => v.pos))))
      = Except.ok (some (6, 2, [p1, p2, p3, p1, p2, p3])) := by rfl
